import Mathlib

/-!
Shallow embedding of the outbound dial coordinator of `go-libp2p-swarm`
(file `swarm_conn.go`, which merges the connection wrapper and the dial
engine of the swarm package), together with theorems settling the frozen
claims about it.

Conventions of the embedding:
* `peer.ID` is an opaque, equality-comparable identifier — modelled as `Nat`.
* `time.Time` and `time.Duration` are both modelled as `Int` nanoseconds;
  `time.Now()` becomes an explicit `now : Int` argument.
* Go maps become functions into `Option`; mutation becomes explicit
  state passing.
* Fallible Go code returns `Except Err α`.
-/

/-- Opaque peer identifier (`peer.ID`). -/
abbrev PeerID := Nat

/-- Opaque public key (`ic.PubKey`); only identity matters to the swarm. -/
abbrev PubKey := Nat

/-- Error values surfaced by the dial code (`errors.New` values, the
`context` package errors, and the `fmt.Errorf` wrappers). -/
inductive Err where
  /-- `ErrDialBackoff` -/
  | dialBackoff
  /-- `ErrDialToSelf` -/
  | dialToSelf
  /-- `ErrNoTransport` -/
  | noTransport
  /-- `inet.ErrNoRemoteAddrs`, the `defaultDialFail` of `dialAddrs` -/
  | noRemoteAddrs
  /-- `errors.New("no addresses")` in `dial` -/
  | noAddresses
  /-- `errors.New("no good addresses")` in `dial` -/
  | noGoodAddresses
  /-- `context.Canceled` -/
  | canceled
  /-- `context.DeadlineExceeded` (a dial-peer timeout firing) -/
  | deadlineExceeded
  /-- error returned by `p.Validate()` in `dialPeer` -/
  | invalidPeer
  /-- the `fmt.Errorf` wrapper of `dialAddr` around a transport error -/
  | transportFailed (inner : Err)
  /-- the `fmt.Errorf("dial attempt failed: %s", err)` wrapper of `doDial` -/
  | dialAttemptFailed (inner : Err)
  /-- the `BUG in transport` error of `dialAddr`: wanted vs dialed peer -/
  | transportBug (wanted dialed : PeerID)
  /-- the `wrapConn` error: the ps.Conn does not wrap a conn.Conn -/
  | invalidConn
  /-- an error from `s.addConn` -/
  | addConnFailed
  /-- an arbitrary transport-level dial error, tagged by a code -/
  | other (code : Nat)
deriving DecidableEq, Repr

/-! ## Backoff registry (`DialBackoff`) -/

/-- `backoffPeer`: one entry of the backoff registry
(`tries int; until time.Time`). -/
structure backoffPeer where
  tries : Int
  untilT : Int
deriving DecidableEq, Repr

/-- `DialBackoff.entries`: the registry, `map[peer.ID]*backoffPeer`.
The lock and the lazy `init` are concurrency plumbing with no effect on
the map's contents, so the model is the map itself. -/
def DialBackoff := PeerID → Option backoffPeer

/-- `BackoffBase = time.Second * 5` (nanoseconds). -/
def BackoffBase : Int := 5 * 1000000000

/-- `BackoffCoef = time.Second` (nanoseconds). -/
def BackoffCoef : Int := 1000000000

/-- `BackoffMax = time.Minute * 5` (nanoseconds). -/
def BackoffMax : Int := 300 * 1000000000

/-- `DialBackoff.Backoff(p)`: true iff an entry exists and
`time.Now().Before(bp.untilT)`. -/
def Backoff (db : DialBackoff) (p : PeerID) (now : Int) : Bool :=
  match db p with
  | some bp => decide (now < bp.untilT)
  | none => false

/-- `DialBackoff.AddBackoff(p)`: insert `{tries: 1, until: now + BackoffBase}`
when absent; otherwise set
`until = now + (BackoffBase + BackoffCoef*tries*tries, clamped at BackoffMax)`
and increment `tries`. -/
def AddBackoff (db : DialBackoff) (p : PeerID) (now : Int) : DialBackoff :=
  match db p with
  | none =>
    fun q => if q = p then some ⟨1, now + BackoffBase⟩ else db q
  | some bp =>
    let backoffTime := BackoffBase + BackoffCoef * (bp.tries * bp.tries)
    let backoffTime := if backoffTime > BackoffMax then BackoffMax else backoffTime
    fun q => if q = p then some ⟨bp.tries + 1, now + backoffTime⟩ else db q

/-- `DialBackoff.Clear(p)`: `delete(db.entries, p)`. -/
def Clear (db : DialBackoff) (p : PeerID) : DialBackoff :=
  fun q => if q = p then none else db q

/-- The clamped quadratic wait of `AddBackoff` is exactly
`min BackoffMax (BackoffBase + BackoffCoef * k^2)`. -/
theorem backoffTime_eq_min (k : Int) :
    (if BackoffBase + BackoffCoef * (k * k) > BackoffMax then BackoffMax
      else BackoffBase + BackoffCoef * (k * k)) =
    min BackoffMax (BackoffBase + BackoffCoef * k ^ 2) := by
  rw [pow_two, min_def]
  split <;> split <;> omega

/-- `AddBackoff` at an absent entry: lookup of the inserted record. -/
theorem addBackoff_lookup_none (db : DialBackoff) (p : PeerID) (now : Int)
    (h : db p = none) :
    AddBackoff db p now p = some ⟨1, now + BackoffBase⟩ := by
  unfold AddBackoff
  rw [h]
  simp

/-- `AddBackoff` at an existing entry: lookup of the updated record. -/
theorem addBackoff_lookup_some (db : DialBackoff) (p : PeerID) (now k u : Int)
    (h : db p = some ⟨k, u⟩) :
    AddBackoff db p now p =
      some ⟨k + 1, now + min BackoffMax (BackoffBase + BackoffCoef * k ^ 2)⟩ := by
  unfold AddBackoff
  rw [h]
  simp only [if_pos rfl]
  rw [← backoffTime_eq_min k]

/-- C1: `AddBackoff(p)` with no existing entry inserts `{tries = 1,
until = now + BackoffBase}`; with an existing entry of `tries = k` it sets
`until = now + min(BackoffMax, BackoffBase + BackoffCoef * k^2)` and bumps
`tries` to `k + 1`. -/
theorem addBackoff_spec (db : DialBackoff) (p : PeerID) (now : Int) :
    (db p = none → AddBackoff db p now p = some ⟨1, now + BackoffBase⟩) ∧
    (∀ k u : Int, db p = some ⟨k, u⟩ →
      AddBackoff db p now p =
        some ⟨k + 1, now + min BackoffMax (BackoffBase + BackoffCoef * k ^ 2)⟩) := by
  refine ⟨fun h => addBackoff_lookup_none db p now h,
    fun k u h => addBackoff_lookup_some db p now k u h⟩

/-- Sample registry with no entry for peer 7. -/
def dbEmpty : DialBackoff := fun _ => none

/-- Sample registry holding `{tries = 2, until = 40}` for peer 7. -/
def dbTwo : DialBackoff := fun q => if q = 7 then some ⟨2, 40⟩ else none

/-- Witness for C1 at concrete inputs: a fresh entry for peer 7 at time 100,
and an update of an entry with 2 prior tries. -/
theorem addBackoff_spec_witness :
    AddBackoff dbEmpty 7 100 7 = some ⟨1, 100 + BackoffBase⟩ ∧
    AddBackoff dbTwo 7 100 7 =
      some ⟨2 + 1, 100 + min BackoffMax (BackoffBase + BackoffCoef * 2 ^ 2)⟩ :=
  ⟨(addBackoff_spec dbEmpty 7 100).1 rfl,
   (addBackoff_spec dbTwo 7 100).2 2 40 rfl⟩

/-- C10: a stale entry (`until ≤ now`) makes `Backoff` return `false` but
stays in the registry untouched; a later `AddBackoff` continues from the
accumulated `tries` instead of restarting at 1; `AddBackoff` never deletes
an entry, and `Clear` removes it. -/
theorem backoff_entry_persists (db : DialBackoff) (p : PeerID)
    (now now' k u : Int) (h : db p = some ⟨k, u⟩) (hstale : u ≤ now) :
    Backoff db p now = false ∧
    AddBackoff db p now' p =
      some ⟨k + 1, now' + min BackoffMax (BackoffBase + BackoffCoef * k ^ 2)⟩ ∧
    (∀ q, (db q).isSome → (AddBackoff db p now' q).isSome) ∧
    Clear db p p = none := by
  refine ⟨?_, addBackoff_lookup_some db p now' k u h, ?_, ?_⟩
  · unfold Backoff
    rw [h]
    simp
    omega
  · intro q hq
    unfold AddBackoff
    cases hdb : db p with
    | none => simp only [hdb]; split <;> simp_all
    | some bp => simp only [hdb]; split <;> simp_all
  · unfold Clear
    simp

/-- Witness for C10 at a concrete stale entry: peer 7 with
`{tries = 2, until = 40}` at time 50. -/
theorem backoff_entry_persists_witness :
    Backoff dbTwo 7 50 = false ∧
    AddBackoff dbTwo 7 60 7 =
      some ⟨2 + 1, 60 + min BackoffMax (BackoffBase + BackoffCoef * 2 ^ 2)⟩ ∧
    (∀ q, (dbTwo q).isSome → (AddBackoff dbTwo 7 60 q).isSome) ∧
    Clear dbTwo 7 7 = none :=
  backoff_entry_persists dbTwo 7 50 60 2 40 rfl (by decide)

/-! ## Multiaddresses, transports, connections -/

/-- `ma.Multiaddr`: modelled as its protocol-code stack plus an opaque
payload distinguishing addresses with the same stack; equality is the
multiaddr `Equal`. -/
structure Multiaddr where
  protocols : List Nat
  payload : Nat
deriving DecidableEq, Repr

/-- `ma.P_IP4`. -/
def P_IP4 : Nat := 4

/-- `ma.P_IP6`. -/
def P_IP6 : Nat := 41

/-- `transport.Conn` (`connC` in `dialAddr`): the post-handshake connection
handle; the swarm's dial code inspects only the remote peer and the remote
public key. -/
structure ConnC where
  remotePeer : PeerID
  remotePubKey : Option PubKey
deriving DecidableEq, Repr

/-- A transport, as consumed by `dialAddr`: `CanDial` and `Dial`.
`Dial`'s context argument is dropped (cancellation is driven by the
schedule of `dialAddrs` in this model). -/
structure Transport where
  canDial : Multiaddr → Bool
  dial : Multiaddr → PeerID → Except Err ConnC

/-- The swarm state consumed by the dial path. External collaborators
(peer store, transports, filters, connection registry) appear as function
fields, read-only from the dial code's point of view. -/
structure Swarm where
  /-- `s.local` (field renamed: `local` is reserved in Lean) -/
  localPeer : PeerID
  /-- `peer.ID.Validate()` (external): true iff the peer id is valid. -/
  validate : PeerID → Bool
  /-- `s.peers.Addrs(p)` -/
  peersAddrs : PeerID → List Multiaddr
  /-- `s.TransportForDialing(addr)` -/
  transportForDialing : Multiaddr → Option Transport
  /-- `s.InterfaceListenAddresses()` (error component dropped by the code) -/
  interfaceListenAddresses : List Multiaddr
  /-- `s.Filters.AddrBlocked(addr)` -/
  addrBlocked : Multiaddr → Bool
  /-- `addrutil.AddrOverNonLocalIP` (external predicate from go-addr-util):
  whether the address is over a non-local IP. -/
  addrOverNonLocalIP : Multiaddr → Bool
  /-- `s.bestConnToPeerWrapper(p)`: the connection registry's best current
  connection to `p`, as observed at the entry of `doDial` / `dialPeer`. -/
  bestConnToPeer : PeerID → Option ConnC
  /-- `s.bestConnToPeerFallbackWrapper(p)`: the registry's fallback view,
  as observed after a failed dial inside `doDial`. -/
  bestConnToPeerFallback : PeerID → Option ConnC
  /-- `s.bestDest`, the optional best-destination selector of this fork;
  `none` models a nil `bestDest`, and the function models
  `s.bestDestSelectWrapper(p, goodAddrs)`. -/
  bestDest : Option (PeerID → List Multiaddr → List Multiaddr)
  /-- `s.addConn(connC, inet.DirOutbound)` (external, in swarm.go):
  registers the transport connection and returns the wrapped swarm
  connection handed to callers. -/
  addConn : ConnC → Except Err ConnC

/-- `Swarm.dialAddr(ctx, p, addr)`. Returns the result together with the
list of connections the function closed (`connC.Close()` calls), so that
discarding a misbehaving transport's connection is observable. -/
def dialAddr (s : Swarm) (p : PeerID) (addr : Multiaddr) :
    Except Err ConnC × List ConnC :=
  if s.localPeer = p then (.error .dialToSelf, [])
  else
    match s.transportForDialing addr with
    | none => (.error .noTransport, [])
    | some tpt =>
      match tpt.dial addr p with
      | .error e => (.error (.transportFailed e), [])
      | .ok connC =>
        if connC.remotePeer ≠ p then
          (.error (.transportBug p connC.remotePeer), [connC])
        else
          (.ok connC, [])

/-- C2: a successful `dialAddr(ctx, p, addr)` always hands back a
connection whose remote peer is `p`; when the transport yields a
connection to some other peer, `dialAddr` closes it and returns the
transport-bug error instead. -/
theorem dialAddr_remote_peer (s : Swarm) (p : PeerID) (addr : Multiaddr) :
    (∀ c, (dialAddr s p addr).1 = .ok c → c.remotePeer = p) ∧
    (∀ tpt c, s.localPeer ≠ p → s.transportForDialing addr = some tpt →
      tpt.dial addr p = .ok c → c.remotePeer ≠ p →
      (dialAddr s p addr).1 = .error (.transportBug p c.remotePeer) ∧
        c ∈ (dialAddr s p addr).2) := by
  constructor
  · intro c hc
    unfold dialAddr at hc
    by_cases hl : s.localPeer = p
    · rw [if_pos hl] at hc
      simp at hc
    · rw [if_neg hl] at hc
      cases htpt : s.transportForDialing addr with
      | none => simp only [htpt] at hc; simp at hc
      | some tpt =>
        simp only [htpt] at hc
        cases hd : tpt.dial addr p with
        | error e => simp only [hd] at hc; simp at hc
        | ok cc =>
          simp only [hd] at hc
          by_cases hne : cc.remotePeer ≠ p
          · rw [if_pos hne] at hc
            simp at hc
          · rw [if_neg hne] at hc
            simp at hc
            rw [← hc]
            exact not_not.mp hne
  · intro tpt c hlocal htpt hdial hne
    unfold dialAddr
    simp only [if_neg hlocal, htpt, hdial, if_pos hne]
    simp

/-- Sample transport that, asked to dial peer 3, reports remote peer 9. -/
def tptWrongPeer : Transport :=
  { canDial := fun _ => true
    dial := fun _ _ => .ok ⟨9, none⟩ }

/-- Sample address `/ip4/...`-shaped with payload 0. -/
def addrA : Multiaddr := ⟨[P_IP4, 6], 0⟩

/-- Sample swarm whose only transport is `tptWrongPeer`; local peer 1. -/
def swarmWrongPeer : Swarm :=
  { localPeer := 1
    validate := fun _ => true
    peersAddrs := fun _ => [addrA]
    transportForDialing := fun _ => some tptWrongPeer
    interfaceListenAddresses := []
    addrBlocked := fun _ => false
    addrOverNonLocalIP := fun _ => true
    bestConnToPeer := fun _ => none
    bestConnToPeerFallback := fun _ => none
    bestDest := none
    addConn := fun c => .ok c }

/-- Witness for C2: dialing peer 3 through a transport that returns a
connection to peer 9 yields the transport-bug error and closes that
connection. -/
theorem dialAddr_remote_peer_witness :
    (dialAddr swarmWrongPeer 3 addrA).1 = .error (.transportBug 3 9) ∧
    (⟨9, none⟩ : ConnC) ∈ (dialAddr swarmWrongPeer 3 addrA).2 :=
  (dialAddr_remote_peer swarmWrongPeer 3 addrA).2 tptWrongPeer ⟨9, none⟩
    (by decide) rfl rfl (by decide)

/-! ## Connection setup and the success path (`newConnSetup`) -/

/-- The peer store's public-key table (`s.peers` as seen by `AddPubKey`). -/
def PubKeyStore := PeerID → Option PubKey

/-- `s.peers.AddPubKey(p, pk)`. -/
def AddPubKey (peers : PubKeyStore) (p : PeerID) (pk : PubKey) : PubKeyStore :=
  fun q => if q = p then some pk else peers q

/-- `ps.Conn` as consumed by `wrapConn`/`newConnSetup`: whether its
`NetConn()` is a `conn.Conn`, the underlying connection data, and the
peerstream groups it belongs to. -/
structure PsConn where
  isConnConn : Bool
  conn : ConnC
  groups : List PeerID
deriving DecidableEq, Repr

/-- `wrapConn(psc)`: reject a ps.Conn whose `NetConn()` is not a
`conn.Conn`. -/
def wrapConn (psc : PsConn) : Except Err PsConn :=
  if psc.isConnConn then .ok psc else .error .invalidConn

/-- `Swarm.newConnSetup(ctx, psConn)`: wrap the connection, push the remote
public key (when present) into the peer store, and add the remote peer as a
group on the conn. Returns the resulting conn and the updated key store. -/
def newConnSetup (peers : PubKeyStore) (psConn : PsConn) :
    Except Err (PsConn × PubKeyStore) :=
  match wrapConn psConn with
  | .error e => .error e
  | .ok sc =>
    let peers' :=
      match sc.conn.remotePubKey with
      | some pk => AddPubKey peers sc.conn.remotePeer pk
      | none => peers
    .ok ({ sc with groups := sc.groups ++ [sc.conn.remotePeer] }, peers')

/-- Modelled from the spec: the facade's success handling — "On success:
`clear(p)` in the backoff registry; if the new connection carries a remote
public key, push it into the peer store." The code performing the backoff
clear on a successful dial (`Swarm.addConn` / the facade's success path in
swarm.go) is not part of the given source; only `Clear` itself and the
pubkey half (`newConnSetup`) are. -/
def onDialSuccess (db : DialBackoff) (peers : PubKeyStore) (p : PeerID)
    (c : ConnC) : DialBackoff × PubKeyStore :=
  (Clear db p,
    match c.remotePubKey with
    | some pk => AddPubKey peers c.remotePeer pk
    | none => peers)

/-- C4: on a successful dial of `p` the backoff entry for `p` is cleared,
and a connection exposing a remote public key gets that key recorded in the
peer store under the connection's remote peer — both in the spec-modelled
success handler and in `newConnSetup` from the source. -/
theorem dial_success_clears_backoff (db : DialBackoff) (peers : PubKeyStore)
    (p : PeerID) (c : ConnC) :
    (onDialSuccess db peers p c).1 p = none ∧
    (∀ pk, c.remotePubKey = some pk →
      (onDialSuccess db peers p c).2 c.remotePeer = some pk) ∧
    (∀ psc : PsConn, ∀ pk, psc.isConnConn = true →
      psc.conn.remotePubKey = some pk →
      ∃ sc, newConnSetup peers psc = .ok sc ∧
        sc.2 psc.conn.remotePeer = some pk) := by
  refine ⟨?_, ?_, ?_⟩
  · unfold onDialSuccess Clear
    simp
  · intro pk hpk
    unfold onDialSuccess
    rw [hpk]
    unfold AddPubKey
    simp
  · intro psc pk hcc hpk
    simp only [newConnSetup, wrapConn, hcc, if_true, hpk]
    refine ⟨_, rfl, ?_⟩
    unfold AddPubKey
    simp

/-- Sample ps.Conn wrapping a conn.Conn to peer 9 that carries pubkey 42. -/
def pscKeyed : PsConn := ⟨true, ⟨9, some 42⟩, []⟩

/-- Witness for C4: after a successful dial of peer 7 over a connection to
peer 9 carrying pubkey 42, the backoff entry of 7 is gone and the store
maps 9 to 42; `newConnSetup` records the same key. -/
theorem dial_success_clears_backoff_witness :
    (onDialSuccess dbTwo (fun _ => none) 7 ⟨9, some 42⟩).1 7 = none ∧
    (onDialSuccess dbTwo (fun _ => none) 7 ⟨9, some 42⟩).2 9 = some 42 ∧
    ∃ sc, newConnSetup (fun _ => none) pscKeyed = .ok sc ∧ sc.2 9 = some 42 :=
  ⟨(dial_success_clears_backoff dbTwo (fun _ => none) 7 ⟨9, some 42⟩).1,
   (dial_success_clears_backoff dbTwo (fun _ => none) 7 ⟨9, some 42⟩).2.1 42 rfl,
   (dial_success_clears_backoff dbTwo (fun _ => none) 7 ⟨9, some 42⟩).2.2
     pscKeyed 42 rfl rfl⟩

/-! ## Address filtering (`filterKnownUndialables`) -/

/-- Modelled from the spec: `addrutil.FilterAddrs(addrs, filters...)` from
go-addr-util (an external dependency, not in the given source) — keeps the
addresses that pass every filter, in input order ("Filter is a pure
function. Ordering of the output preserves input ordering"). -/
def FilterAddrs (addrs : List Multiaddr) (filters : List (Multiaddr → Bool)) :
    List Multiaddr :=
  addrs.filter (fun a => filters.all (fun f => f a))

/-- Modelled from the spec: `addrutil.SubtractFilter(ours...)` from
go-addr-util — a filter passing exactly the addresses not equal to any of
`ours` ("Equals one of our own interface-listen IP-based addresses"). -/
def SubtractFilter (ours : List Multiaddr) : Multiaddr → Bool :=
  fun a => !(ours.contains a)

/-- Modelled from the spec: `addrutil.FilterNeg(f)` from go-addr-util —
the pointwise negation of a filter ("any address with
`addr_blocked=true`" is removed). -/
def FilterNeg (f : Multiaddr → Bool) : Multiaddr → Bool :=
  fun a => !(f a)

/-- `Swarm.canDial(addr)`: a transport exists for the address and can dial
it. -/
def canDial (s : Swarm) (addr : Multiaddr) : Bool :=
  match s.transportForDialing addr with
  | some t => t.canDial addr
  | none => false

/-- The `ourAddrs` loop of `filterKnownUndialables`: keep only the
interface-listen addresses whose protocol stack has exactly two protocols
and starts with /ip4 or /ip6. -/
def ourIpListenAddrs (s : Swarm) : List Multiaddr :=
  s.interfaceListenAddresses.filter (fun addr =>
    addr.protocols.length = 2 &&
      (addr.protocols.head? = some P_IP4 || addr.protocols.head? = some P_IP6))

/-- `Swarm.filterKnownUndialables(addrs)`: subtract our own listen
addresses, then keep dialable, non-local, non-blocked addresses. -/
def filterKnownUndialables (s : Swarm) (addrs : List Multiaddr) :
    List Multiaddr :=
  FilterAddrs addrs
    [SubtractFilter (ourIpListenAddrs s), canDial s, s.addrOverNonLocalIP,
      FilterNeg s.addrBlocked]

/-- C7: `filterKnownUndialables` is the stable filter keeping exactly the
input addresses that are not one of our two-protocol /ip4 or /ip6 listen
addresses, are over a non-local IP, have a transport that can dial them,
and are not blocked; in particular its output is a sublist of (hence in
the order of) its input. -/
theorem filterKnownUndialables_spec (s : Swarm) (addrs : List Multiaddr) :
    filterKnownUndialables s addrs =
      addrs.filter (fun a =>
        !((ourIpListenAddrs s).contains a) && s.addrOverNonLocalIP a &&
          canDial s a && !(s.addrBlocked a)) ∧
    (filterKnownUndialables s addrs).Sublist addrs := by
  have hpt : ∀ a : Multiaddr,
      ([SubtractFilter (ourIpListenAddrs s), canDial s, s.addrOverNonLocalIP,
        FilterNeg s.addrBlocked].all (fun f => f a)) =
      (!((ourIpListenAddrs s).contains a) && s.addrOverNonLocalIP a &&
        canDial s a && !(s.addrBlocked a)) := by
    intro a
    simp only [List.all_cons, List.all_nil, SubtractFilter, FilterNeg,
      Bool.and_true]
    cases (ourIpListenAddrs s).contains a <;> cases canDial s a <;>
      cases s.addrOverNonLocalIP a <;> cases s.addrBlocked a <;> rfl
  constructor
  · unfold filterKnownUndialables FilterAddrs
    exact List.filter_congr (fun a _ => hpt a)
  · unfold filterKnownUndialables FilterAddrs
    exact List.filter_sublist addrs

/-! ## The per-peer address race (`dialAddrs`)

The Go loop is concurrent: each iteration first polls `ctx.Done()` and the
response channel without blocking, then blocks on the next address, a
response, or cancellation. The nondeterminism of the two `select`s is made
explicit as a schedule: a list of events saying which ready branch each
`select` takes. -/

/-- `dialResult`: what a dial job posts on `respch`
(`Conn transport.Conn; Addr ma.Multiaddr; Err error`; the address is only
logged). -/
structure dialResult where
  conn : Option ConnC
  err : Option Err
deriving DecidableEq, Repr

/-- One scheduling event of the `dialAddrs` loop:
* `done` — a `select` observes `ctx.Done()`;
* `resp r` — a `select` receives `r` from `respch`;
* `dflt` — the first, non-blocking `select` takes its `default` branch;
* `addr` — the second `select` receives from `remoteAddrs` (the next
  address, or the closed-channel signal when the list is spent). -/
inductive Ev where
  | done
  | resp (r : dialResult)
  | dflt
  | addr
deriving DecidableEq, Repr

/-- The `ctx.Done()` exit of `dialAddrs`: report `ctx.Err()` only when no
per-address error has replaced the `defaultDialFail` sentinel
(`inet.ErrNoRemoteAddrs`). -/
def exitOnDone (exitErr ctxReason : Err) : Err :=
  if exitErr = Err.noRemoteAddrs then ctxReason else exitErr

/-- The loop of `Swarm.dialAddrs`, driven by an event schedule.
State: `addrs` is the `remoteAddrs` channel (`none` once the code sets it
to nil), `active` the in-flight job count, `exitErr` the latest observed
error, `subs` the addresses submitted to the limiter so far
(`s.limitedDial` calls). Returns `none` when the schedule runs out or is
not a possible interleaving (receiving from a nil channel, `default` in
the blocking `select`). -/
def dialAddrsLoop (ctxReason : Err) (tr : List Ev)
    (addrs : Option (List Multiaddr)) (active : Int) (exitErr : Err)
    (subs : List Multiaddr) : Option (Except Err ConnC × List Multiaddr) :=
  if addrs = none ∧ active ≤ 0 then some (.error exitErr, subs)
  else
    match tr with
    | [] => none
    | Ev.done :: _ => some (.error (exitOnDone exitErr ctxReason), subs)
    | Ev.resp r :: tr' =>
      match r.err with
      | some e => dialAddrsLoop ctxReason tr' addrs (active - 1) e subs
      | none =>
        match r.conn with
        | some c => some (.ok c, subs)
        | none => dialAddrsLoop ctxReason tr' addrs (active - 1) exitErr subs
    | Ev.addr :: _ => none
    | Ev.dflt :: tr' =>
      match tr' with
      | [] => none
      | Ev.done :: _ => some (.error (exitOnDone exitErr ctxReason), subs)
      | Ev.resp r :: tr'' =>
        match r.err with
        | some e => dialAddrsLoop ctxReason tr'' addrs (active - 1) e subs
        | none =>
          match r.conn with
          | some c => some (.ok c, subs)
          | none => dialAddrsLoop ctxReason tr'' addrs (active - 1) exitErr subs
      | Ev.addr :: tr'' =>
        match addrs with
        | some (a :: rest) =>
          dialAddrsLoop ctxReason tr'' (some rest) (active + 1) exitErr
            (subs ++ [a])
        | some [] => dialAddrsLoop ctxReason tr'' none active exitErr subs
        | none => none
      | Ev.dflt :: _ => none

/-- `Swarm.dialAddrs(ctx, p, remoteAddrs)` under a given cancellation
reason and schedule: run the loop from the freshly filled address channel,
`active = 0` and `exitErr = defaultDialFail`. -/
def dialAddrs (ctxReason : Err) (tr : List Ev) (goodAddrs : List Multiaddr) :
    Option (Except Err ConnC × List Multiaddr) :=
  dialAddrsLoop ctxReason tr (some goodAddrs) 0 Err.noRemoteAddrs []

/-- Amended C6: when a `select` of the running race observes `ctx.Done()`,
the loop exits with an error, returning the already-observed per-address
error in preference and the context's own cancellation reason only while
`exitErr` still holds the `defaultDialFail` sentinel; an error response
replaces `exitErr` for the rest of the run. -/
theorem dialAddrs_cancel_prefers_observed (ctxReason : Err) (tr : List Ev)
    (addrs : Option (List Multiaddr)) (active : Int) (exitErr : Err)
    (subs : List Multiaddr) (hlive : ¬(addrs = none ∧ active ≤ 0)) :
    dialAddrsLoop ctxReason (Ev.done :: tr) addrs active exitErr subs =
      some (.error (if exitErr = Err.noRemoteAddrs then ctxReason else exitErr),
        subs) ∧
    dialAddrsLoop ctxReason (Ev.dflt :: Ev.done :: tr) addrs active exitErr
        subs =
      some (.error (if exitErr = Err.noRemoteAddrs then ctxReason else exitErr),
        subs) ∧
    (∀ r e, r.err = some e →
      dialAddrsLoop ctxReason (Ev.resp r :: tr) addrs active exitErr subs =
        dialAddrsLoop ctxReason tr addrs (active - 1) e subs) := by
  refine ⟨?_, ?_, ?_⟩
  · unfold dialAddrsLoop
    rw [if_neg hlive]
    rfl
  · unfold dialAddrsLoop
    rw [if_neg hlive]
    rfl
  · intro r e hre
    conv =>
      lhs
      unfold dialAddrsLoop
    rw [if_neg hlive]
    simp only [hre]

/-- Second sample address, `/ip4/...`-shaped with payload 1. -/
def addrB : Multiaddr := ⟨[P_IP4, 6], 1⟩

/-- Counterexample to C6 as stated: with one address submitted, its dial
error observed, and the context then cancelled, `dialAddrs` returns the
per-address error, not the context's cancellation reason, although both
are available. -/
theorem dialAddrs_cancel_prefers_observed_cex :
    dialAddrs Err.canceled
        [Ev.dflt, Ev.addr, Ev.resp ⟨none, some (Err.other 0)⟩, Ev.done]
        [addrB] =
      some (.error (Err.other 0), [addrB]) ∧
    Err.other 0 ≠ Err.canceled := by
  exact ⟨rfl, by decide⟩

/-- Witness for amended C6: cancellation after an observed error returns
that error; cancellation with no observed error returns the context's
reason. -/
theorem dialAddrs_cancel_prefers_observed_witness :
    dialAddrsLoop Err.canceled [Ev.done] (some []) 1 (Err.other 0) [addrB] =
      some (.error (if Err.other 0 = Err.noRemoteAddrs then Err.canceled
        else Err.other 0), [addrB]) ∧
    dialAddrsLoop Err.deadlineExceeded [Ev.done] (some [addrB]) 0
        Err.noRemoteAddrs [] =
      some (.error (if Err.noRemoteAddrs = Err.noRemoteAddrs
        then Err.deadlineExceeded else Err.noRemoteAddrs), []) :=
  ⟨(dialAddrs_cancel_prefers_observed Err.canceled [] (some []) 1 (Err.other 0)
      [addrB] (by simp)).1,
   (dialAddrs_cancel_prefers_observed Err.deadlineExceeded [] (some [addrB]) 0
      Err.noRemoteAddrs [] (by simp)).1⟩

/-! ## The per-peer dial (`dial`, `doDial`, `dialPeer`) -/

/-- The `s.bestDest` adjustment inside `dial`: when a best-destination
selector is installed and returns a non-empty list, that list replaces the
filtered one (`s.bestDestSelectWrapper` is modelled as the selector
itself). -/
def bestDestAdjust (s : Swarm) (p : PeerID) (goodAddrs : List Multiaddr) :
    List Multiaddr :=
  match s.bestDest with
  | none => goodAddrs
  | some sel =>
    let bestAddrs := sel p goodAddrs
    if bestAddrs.length ≠ 0 then bestAddrs else goodAddrs

/-- `Swarm.dial(ctx, p)`: self-check, address fetch, filtering, the
address race, and registration of the winning connection via `s.addConn`
(external; on its failure the code closes the connection and fails).
The private-key lookup of the source only drives logging and is omitted.
Returns the result together with the addresses submitted to the limiter. -/
def dial (s : Swarm) (p : PeerID) (ctxReason : Err) (tr : List Ev) :
    Option (Except Err ConnC × List Multiaddr) :=
  if p = s.localPeer then some (.error .dialToSelf, [])
  else
    let peerAddrs := s.peersAddrs p
    if peerAddrs.length = 0 then some (.error .noAddresses, [])
    else
      let goodAddrs := filterKnownUndialables s peerAddrs
      if goodAddrs.length = 0 then some (.error .noGoodAddresses, [])
      else
        match dialAddrs ctxReason tr (bestDestAdjust s p goodAddrs) with
        | none => none
        | some (.error e, subs) => some (.error e, subs)
        | some (.ok connC, subs) =>
          match s.addConn connC with
          | .error e => some (.error e, subs)
          | .ok swarmC => some (.ok swarmC, subs)

/-- C8: `dial` fails with the no-addresses error when the peer store has
no addresses for `p`, and with the no-good-addresses error when addresses
exist but the filter removes all of them; in both cases it returns with an
empty list of submitted dial jobs. -/
theorem dial_no_addresses (s : Swarm) (p : PeerID)
    (ctxReason : Err) (tr : List Ev) (hp : p ≠ s.localPeer) :
    (s.peersAddrs p = [] →
      dial s p ctxReason tr = some (.error .noAddresses, [])) ∧
    (s.peersAddrs p ≠ [] → filterKnownUndialables s (s.peersAddrs p) = [] →
      dial s p ctxReason tr = some (.error .noGoodAddresses, [])) := by
  constructor
  · intro h
    unfold dial
    rw [if_neg hp]
    simp [h]
  · intro hne hfil
    unfold dial
    rw [if_neg hp]
    simp [hfil, List.length_eq_zero]
    intro hlen
    exact absurd hlen hne

/-- C8 witness: a swarm with an empty address book for peer 3, and one
whose single address for peer 3 is blocked by policy. -/
def swarmNoAddrs : Swarm :=
  { swarmWrongPeer with peersAddrs := fun _ => [] }

/-- Sample swarm where every address is blocked by the policy filter. -/
def swarmAllBlocked : Swarm :=
  { swarmWrongPeer with addrBlocked := fun _ => true }

/-- Witness for C8: both early-exit errors, with no job submitted. -/
theorem dial_no_addresses_witness :
    dial swarmNoAddrs 3 Err.canceled [] = some (.error .noAddresses, []) ∧
    dial swarmAllBlocked 3 Err.canceled [] =
      some (.error .noGoodAddresses, []) :=
  ⟨(dial_no_addresses swarmNoAddrs 3 Err.canceled [] (by decide)).1 rfl,
   (dial_no_addresses swarmAllBlocked 3 Err.canceled [] (by decide)).2
     (by decide) rfl⟩

/-- `Swarm.doDial(ctx, p)`: the shim run by the single-flight leader —
short-circuit to an existing connection, run `dial`, on failure consult
the registry's fallback view, and otherwise record backoff unless the
error is `context.Canceled`. Returns the result, the updated backoff
registry, and the submitted addresses. -/
def doDial (s : Swarm) (db : DialBackoff) (now : Int) (p : PeerID)
    (ctxReason : Err) (tr : List Ev) :
    Option (Except Err ConnC × DialBackoff × List Multiaddr) :=
  match s.bestConnToPeer p with
  | some c => some (.ok c, db, [])
  | none =>
    match dial s p ctxReason tr with
    | none => none
    | some (.ok conn, subs) => some (.ok conn, db, subs)
    | some (.error err, subs) =>
      match s.bestConnToPeerFallback p with
      | some conn => some (.ok conn, db, subs)
      | none =>
        if err = Err.canceled then
          some (.error (.dialAttemptFailed err), db, subs)
        else
          some (.error (.dialAttemptFailed err), AddBackoff db p now, subs)

/-- C5: when the dial effort fails but the fallback view of the connection
registry holds a connection to `p`, `doDial` returns that connection with
no error: the dial error is discarded and the backoff registry is left
untouched. -/
theorem doDial_fallback_suppresses_error (s : Swarm) (db : DialBackoff)
    (now : Int) (p : PeerID) (ctxReason : Err) (tr : List Ev) (err : Err)
    (subs : List Multiaddr) (c : ConnC)
    (hbest : s.bestConnToPeer p = none)
    (hdial : dial s p ctxReason tr = some (.error err, subs))
    (hfb : s.bestConnToPeerFallback p = some c) :
    doDial s db now p ctxReason tr = some (.ok c, db, subs) := by
  unfold doDial
  simp only [hbest, hdial, hfb]

/-- Sample transport that refuses every dial. -/
def tptRefuses : Transport :=
  { canDial := fun _ => true
    dial := fun _ _ => .error (Err.other 1) }

/-- Sample swarm with no connections anywhere and one dialable address for
every peer, whose transport refuses all dials. -/
def swarmTimesOut : Swarm :=
  { swarmWrongPeer with transportForDialing := fun _ => some tptRefuses }

/-- `swarmTimesOut` with a connection to peer 3 in the fallback view. -/
def swarmWithFallback : Swarm :=
  { swarmTimesOut with
      bestConnToPeerFallback := fun _ => some ⟨3, none⟩ }

/-- Witness for C5: dialing peer 3 with an immediately cancelled context
while the fallback view holds a connection returns that connection and
leaves the registry unchanged. -/
theorem doDial_fallback_suppresses_error_witness :
    doDial swarmWithFallback dbEmpty 100 3 Err.canceled [Ev.done] =
      some (.ok ⟨3, none⟩, dbEmpty, []) :=
  doDial_fallback_suppresses_error swarmWithFallback dbEmpty 100 3
    Err.canceled [Ev.done] Err.canceled [] ⟨3, none⟩ rfl rfl rfl

/-- Amended C3: with no fallback connection, a failed dial effort records
backoff exactly when the error is not `context.Canceled`; in particular a
dial that fails with the timeout error `context.DeadlineExceeded` does add
a backoff entry. -/
theorem doDial_backoff_iff_not_canceled (s : Swarm) (db : DialBackoff)
    (now : Int) (p : PeerID) (ctxReason : Err) (tr : List Ev) (err : Err)
    (subs : List Multiaddr)
    (hbest : s.bestConnToPeer p = none)
    (hdial : dial s p ctxReason tr = some (.error err, subs))
    (hfb : s.bestConnToPeerFallback p = none) :
    doDial s db now p ctxReason tr =
      some (.error (.dialAttemptFailed err),
        (if err = Err.canceled then db else AddBackoff db p now), subs) := by
  unfold doDial
  simp only [hbest, hdial, hfb]
  split <;> simp

/-- Counterexample to C3 as stated: a dial of peer 3 that fails because the
dial-peer timeout fired (`ctx.Err() = context.DeadlineExceeded`, no address
error observed) makes `doDial` insert a backoff entry for 3, though the
claim says a timeout never adds one. -/
theorem doDial_backoff_iff_not_canceled_cex :
    doDial swarmTimesOut dbEmpty 100 3 Err.deadlineExceeded [Ev.done] =
      some (.error (.dialAttemptFailed .deadlineExceeded),
        AddBackoff dbEmpty 3 100, []) ∧
    AddBackoff dbEmpty 3 100 3 = some ⟨1, 100 + BackoffBase⟩ := by
  exact ⟨rfl, by decide⟩

/-- Witness for amended C3: a dial failing with `context.Canceled` leaves
the registry unchanged, one failing with `context.DeadlineExceeded` adds
an entry. -/
theorem doDial_backoff_iff_not_canceled_witness :
    doDial swarmTimesOut dbEmpty 100 3 Err.canceled [Ev.done] =
      some (.error (.dialAttemptFailed Err.canceled),
        (if Err.canceled = Err.canceled then dbEmpty
          else AddBackoff dbEmpty 3 100), []) ∧
    doDial swarmTimesOut dbTwo 100 3 Err.deadlineExceeded [Ev.done] =
      some (.error (.dialAttemptFailed Err.deadlineExceeded),
        (if Err.deadlineExceeded = Err.canceled then dbTwo
          else AddBackoff dbTwo 3 100), []) :=
  ⟨doDial_backoff_iff_not_canceled swarmTimesOut dbEmpty 100 3 Err.canceled
      [Ev.done] Err.canceled [] rfl rfl rfl,
   doDial_backoff_iff_not_canceled swarmTimesOut dbTwo 100 3
      Err.deadlineExceeded [Ev.done] Err.deadlineExceeded [] rfl rfl rfl⟩

/-- Modelled from the spec: `DialSync.DialLock(ctx, p)` of the dial-sync
component (dial_sync.go, not in the given source) — the single-flight
coordinator: the leader runs the dial effort (`doDial`) and every caller
receives its result. With a single caller modelled, `DialLock` is the
leader running `doDial`. -/
def DialLock (s : Swarm) (db : DialBackoff) (now : Int) (p : PeerID)
    (ctxReason : Err) (tr : List Ev) :
    Option (Except Err ConnC × DialBackoff × List Multiaddr) :=
  doDial s db now p ctxReason tr

/-- `Swarm.dialPeer(ctx, p)`: validate the peer id, reject self-dials,
short-circuit to an existing connection, fail fast under backoff, then
dial through the single-flight lock (the dial-peer timeout applied by the
code is reflected in `ctxReason`). Returns the result, the backoff
registry, and the addresses handed to the limiter. -/
def dialPeer (s : Swarm) (db : DialBackoff) (now : Int) (p : PeerID)
    (ctxReason : Err) (tr : List Ev) :
    Option (Except Err ConnC × DialBackoff × List Multiaddr) :=
  if s.validate p = false then some (.error .invalidPeer, db, [])
  else if p = s.localPeer then some (.error .dialToSelf, db, [])
  else
    match s.bestConnToPeer p with
    | some c => some (.ok c, db, [])
    | none =>
      if Backoff db p now then some (.error .dialBackoff, db, [])
      else DialLock s db now p ctxReason tr

/-- C9: for a valid peer id equal to the local peer, `dialPeer` returns
`ErrDialToSelf`, leaves the backoff registry untouched, and submits no
dial job to any transport. -/
theorem dialPeer_self (s : Swarm) (db : DialBackoff) (now : Int) (p : PeerID)
    (ctxReason : Err) (tr : List Ev)
    (hval : s.validate p = true) (hp : p = s.localPeer) :
    dialPeer s db now p ctxReason tr = some (.error .dialToSelf, db, []) := by
  unfold dialPeer
  rw [hval, hp]
  simp

/-- Witness for C9: dialing the local peer 1 of a concrete swarm. -/
theorem dialPeer_self_witness :
    dialPeer swarmWrongPeer dbEmpty 0 1 Err.canceled [] =
      some (.error .dialToSelf, dbEmpty, []) :=
  dialPeer_self swarmWrongPeer dbEmpty 0 1 Err.canceled [] rfl rfl
